import Mathlib

/-!
Verification development for the flood-prediction risk-scoring and trend
engine of `h2oai/h2oai-flood-prediction`.

The definitions below are a shallow embedding, over `ℚ`, of:
  * `calculate_risk_score` from
    `src/core/src/flood_prediction/agents/mcp_unified_flood_server.py`
    (lines 234-425): component sub-scores, likelihood/severity sums,
    classification, immediate-risk flag, and the 1-decimal rounding the
    returned dict applies (Python `round(x, 1)`, round-half-to-even);
  * the predictor pieces from
    `src/core/src/flood_prediction/agents/predictor.py`:
    `generate_forecast`, `_predict_watershed_conditions` (flow projection
    and confidence), `_assess_trend_stability`, and
    `_predict_next_critical_period`.

Python floats are modelled as exact rationals.  The pass-through `location`
string of `calculate_risk_score` and the timestamp fields are omitted: no
claim mentions them.
-/

/-- Round-half-to-even to an integer, i.e. Python 3 `round(x)` restricted to
exact rational inputs: values with fractional part below 1/2 round down,
above 1/2 round up, and exact halves go to the even neighbour. -/
def round_half_even (x : ℚ) : ℤ :=
  if x - (⌊x⌋ : ℚ) < 1/2 then ⌊x⌋
  else if 1/2 < x - (⌊x⌋ : ℚ) then ⌊x⌋ + 1
  else if ⌊x⌋ % 2 = 0 then ⌊x⌋ else ⌊x⌋ + 1

/-- Python `round(x, 1)`: round-half-to-even at one decimal place. -/
def round1 (x : ℚ) : ℚ := (round_half_even (x * 10) : ℚ) / 10

/-- Keyword inputs of `calculate_risk_score`
(`mcp_unified_flood_server.py` lines 235-246), with the Python default
values as structure-field defaults. -/
structure RiskInput where
  current_rainfall_mm : ℚ := 0
  forecast_rainfall_mm : ℚ := 0
  elevation_m : ℚ := 100
  distance_to_water_km : ℚ := 5
  population_density : ℚ := 1000
  historical_events : ℚ := 0
  usgs_flow_cfs : ℚ := 0
  river_stage_ft : ℚ := 0
  flood_stage_ft : ℚ := 20
  weather_alerts : ℚ := 0

/-- Rainfall intensity score (0-20), `mcp_unified_flood_server.py`
lines 271-283.  `3.125 = 25/8`. -/
def rainfall_score (current_rainfall_mm forecast_rainfall_mm : ℚ) : ℚ :=
  if 100 ≤ current_rainfall_mm + forecast_rainfall_mm * (8/10) then 20
  else if 75 ≤ current_rainfall_mm + forecast_rainfall_mm * (8/10) then 16
  else if 50 ≤ current_rainfall_mm + forecast_rainfall_mm * (8/10) then 12
  else if 25 ≤ current_rainfall_mm + forecast_rainfall_mm * (8/10) then 8
  else min 8 ((current_rainfall_mm + forecast_rainfall_mm * (8/10)) / (25/8))

/-- River stage score (0-15), `mcp_unified_flood_server.py` lines 285-298:
zero unless both stage and flood stage are positive, else piecewise on the
stage quotient. -/
def stage_score (river_stage_ft flood_stage_ft : ℚ) : ℚ :=
  if 0 < river_stage_ft ∧ 0 < flood_stage_ft then
    if 1 ≤ river_stage_ft / flood_stage_ft then 15
    else if 9/10 ≤ river_stage_ft / flood_stage_ft then 12
    else if 8/10 ≤ river_stage_ft / flood_stage_ft then 10
    else if 7/10 ≤ river_stage_ft / flood_stage_ft then 7
    else min 7 (river_stage_ft / flood_stage_ft * 10)
  else 0

/-- Flow rate score (0-10), `mcp_unified_flood_server.py` lines 300-310. -/
def flow_score (usgs_flow_cfs : ℚ) : ℚ :=
  if 0 < usgs_flow_cfs then
    if 50000 ≤ usgs_flow_cfs then 10
    else if 20000 ≤ usgs_flow_cfs then 8
    else if 10000 ≤ usgs_flow_cfs then 6
    else min 6 (usgs_flow_cfs / 10000 * 6)
  else 0

/-- Weather alerts score (0-5), `mcp_unified_flood_server.py` line 313. -/
def alert_score (weather_alerts : ℚ) : ℚ :=
  min 5 (weather_alerts * (5/2))

/-- Elevation score (0-15), `mcp_unified_flood_server.py` lines 320-331. -/
def elevation_score (elevation_m : ℚ) : ℚ :=
  if elevation_m < 50 then 15
  else if elevation_m < 100 then 12
  else if elevation_m < 150 then 8
  else if elevation_m < 200 then 5
  else max 0 (15 - elevation_m / 40)

/-- Proximity-to-water score (0-15), `mcp_unified_flood_server.py`
lines 333-343. -/
def proximity_score (distance_to_water_km : ℚ) : ℚ :=
  if distance_to_water_km < 1/2 then 15
  else if distance_to_water_km < 1 then 12
  else if distance_to_water_km < 2 then 9
  else if distance_to_water_km < 5 then 5
  else max 0 (15 - distance_to_water_km * (3/2))

/-- Historical flood events score (0-10), `mcp_unified_flood_server.py`
line 346. -/
def historical_score (historical_events : ℚ) : ℚ :=
  min 10 (historical_events * 2)

/-- Population exposure score (0-10), `mcp_unified_flood_server.py`
lines 348-357. -/
def population_score (population_density : ℚ) : ℚ :=
  if 3000 ≤ population_density then 10
  else if 2000 ≤ population_density then 8
  else if 1000 ≤ population_density then 5
  else min 5 (population_density / 200)

/-- Likelihood sum, `mcp_unified_flood_server.py` line 315. -/
def likelihood_score (m : RiskInput) : ℚ :=
  rainfall_score m.current_rainfall_mm m.forecast_rainfall_mm
    + stage_score m.river_stage_ft m.flood_stage_ft
    + flow_score m.usgs_flow_cfs
    + alert_score m.weather_alerts

/-- Severity sum, `mcp_unified_flood_server.py` line 359. -/
def severity_score (m : RiskInput) : ℚ :=
  elevation_score m.elevation_m
    + proximity_score m.distance_to_water_km
    + historical_score m.historical_events
    + population_score m.population_density

/-- Total risk score, `mcp_unified_flood_server.py` line 362. -/
def total_score (m : RiskInput) : ℚ :=
  likelihood_score m + severity_score m

/-- Risk level classification, `mcp_unified_flood_server.py`
lines 365-376. -/
def risk_level_of (t : ℚ) : String :=
  if 80 ≤ t then "Extreme"
  else if 65 ≤ t then "Critical"
  else if 50 ≤ t then "High"
  else if 35 ≤ t then "Moderate"
  else if 20 ≤ t then "Low"
  else "Very Low"

/-- Display colour paired with the level, same lines of the source. -/
def risk_color_of (t : ℚ) : String :=
  if 80 ≤ t then "#8B0000"
  else if 65 ≤ t then "#FF0000"
  else if 50 ≤ t then "#FF8C00"
  else if 35 ≤ t then "#FFD700"
  else if 20 ≤ t then "#90EE90"
  else "#00FF00"

/-- Immediate risk assessment, `mcp_unified_flood_server.py`
lines 379-383. -/
def immediate_risk_of (m : RiskInput) : String :=
  if 50 < m.current_rainfall_mm ∨ 0 < m.weather_alerts ∨
      (0 < m.river_stage_ft ∧ 0 < m.flood_stage_ft ∧
        9/10 ≤ m.river_stage_ft / m.flood_stage_ft)
  then "High" else "Low"

/-- Numeric and string fields of the dict `calculate_risk_score` returns
(`mcp_unified_flood_server.py` lines 385-416), minus the pass-through
status/agent/location strings and the timestamp. -/
structure RiskResult where
  overall_risk_score : ℚ
  risk_level : String
  risk_color : String
  immediate_risk : String
  likelihood_total : ℚ
  rainfall : ℚ
  river_stage : ℚ
  flow_rate : ℚ
  alerts : ℚ
  severity_total : ℚ
  elevation : ℚ
  proximity : ℚ
  historical : ℚ
  population : ℚ
  percent_of_flood_stage : ℚ

/-- The `calculate_risk_score` tool, `mcp_unified_flood_server.py`
lines 234-416: every reported score is rounded to one decimal, as in the
returned dict. -/
def calculate_risk_score (m : RiskInput) : RiskResult :=
  { overall_risk_score := round1 (total_score m)
    risk_level := risk_level_of (total_score m)
    risk_color := risk_color_of (total_score m)
    immediate_risk := immediate_risk_of m
    likelihood_total := round1 (likelihood_score m)
    rainfall := round1 (rainfall_score m.current_rainfall_mm m.forecast_rainfall_mm)
    river_stage := round1 (stage_score m.river_stage_ft m.flood_stage_ft)
    flow_rate := round1 (flow_score m.usgs_flow_cfs)
    alerts := round1 (alert_score m.weather_alerts)
    severity_total := round1 (severity_score m)
    elevation := round1 (elevation_score m.elevation_m)
    proximity := round1 (proximity_score m.distance_to_water_km)
    historical := round1 (historical_score m.historical_events)
    population := round1 (population_score m.population_density)
    percent_of_flood_stage :=
      if 0 < m.flood_stage_ft then round1 (m.river_stage_ft / m.flood_stage_ft * 100) else 0 }

/-- Nonnegativity of every input field, the "valid measurement" hypothesis
of the spec. -/
def NonNegInput (m : RiskInput) : Prop :=
  0 ≤ m.current_rainfall_mm ∧ 0 ≤ m.forecast_rainfall_mm ∧
  0 ≤ m.elevation_m ∧ 0 ≤ m.distance_to_water_km ∧
  0 ≤ m.population_density ∧ 0 ≤ m.historical_events ∧
  0 ≤ m.usgs_flow_cfs ∧ 0 ≤ m.river_stage_ft ∧
  0 ≤ m.flood_stage_ft ∧ 0 ≤ m.weather_alerts

/-- End-to-end scenario measurement of the spec (section 8, last bullet). -/
def scenario : RiskInput :=
  { current_rainfall_mm := 100
    forecast_rainfall_mm := 0
    elevation_m := 30
    distance_to_water_km := 3/10
    population_density := 3500
    historical_events := 5
    usgs_flow_cfs := 60000
    river_stage_ft := 20
    flood_stage_ft := 20
    weather_alerts := 2 }

/-- C2: on the end-to-end scenario the component scores are
rainfall 20, stage 15, flow 10, alerts 5 (likelihood 50), elevation 15,
proximity 15, historical 10, population 10 (severity 50), the overall
score is exactly 100 and the level is "Extreme". -/
theorem scenario_scores :
    (calculate_risk_score scenario).rainfall = 20 ∧
    (calculate_risk_score scenario).river_stage = 15 ∧
    (calculate_risk_score scenario).flow_rate = 10 ∧
    (calculate_risk_score scenario).alerts = 5 ∧
    (calculate_risk_score scenario).likelihood_total = 50 ∧
    (calculate_risk_score scenario).elevation = 15 ∧
    (calculate_risk_score scenario).proximity = 15 ∧
    (calculate_risk_score scenario).historical = 10 ∧
    (calculate_risk_score scenario).population = 10 ∧
    (calculate_risk_score scenario).severity_total = 50 ∧
    (calculate_risk_score scenario).overall_risk_score = 100 ∧
    (calculate_risk_score scenario).risk_level = "Extreme" := by
  norm_num [calculate_risk_score, scenario, rainfall_score, stage_score,
    flow_score, alert_score, elevation_score, proximity_score,
    historical_score, population_score, likelihood_score, severity_score,
    total_score, risk_level_of, round1, round_half_even, min_def, max_def]

/-! Bounds of the rounding helper and of each component score. -/

lemma round_half_even_nonneg (x : ℚ) (hx : 0 ≤ x) : 0 ≤ round_half_even x := by
  unfold round_half_even
  have h1 : (0:ℤ) ≤ ⌊x⌋ := Int.floor_nonneg.mpr hx
  split_ifs <;> omega

lemma round_half_even_le (x : ℚ) (n : ℤ) (h : x ≤ (n:ℚ)) : round_half_even x ≤ n := by
  unfold round_half_even
  have h1 : (⌊x⌋:ℚ) ≤ x := Int.floor_le x
  have h2 : ⌊x⌋ ≤ n := by
    have := Int.floor_le_floor h
    simpa using this
  split_ifs with hr hr2 hp
  · exact h2
  · by_contra hc
    push_neg at hc
    have hn : n ≤ ⌊x⌋ := by omega
    have hn2 : (n:ℚ) ≤ (⌊x⌋:ℚ) := by exact_mod_cast hn
    linarith
  · exact h2
  · by_contra hc
    push_neg at hc
    have hn : n ≤ ⌊x⌋ := by omega
    have hn2 : (n:ℚ) ≤ (⌊x⌋:ℚ) := by exact_mod_cast hn
    linarith

lemma round1_nonneg (x : ℚ) (hx : 0 ≤ x) : 0 ≤ round1 x := by
  unfold round1
  have := round_half_even_nonneg (x * 10) (by linarith)
  have h2 : (0:ℚ) ≤ (round_half_even (x * 10) : ℚ) := by exact_mod_cast this
  linarith

lemma round1_le (x : ℚ) (n : ℤ) (h : x ≤ (n:ℚ)) : round1 x ≤ (n:ℚ) := by
  unfold round1
  have := round_half_even_le (x * 10) (n * 10) (by push_cast; linarith)
  have h2 : (round_half_even (x * 10) : ℚ) ≤ ((n * 10 : ℤ) : ℚ) := by exact_mod_cast this
  push_cast at h2
  linarith

lemma rainfall_score_bounds (c f : ℚ) (hc : 0 ≤ c) (hf : 0 ≤ f) :
    0 ≤ rainfall_score c f ∧ rainfall_score c f ≤ 20 := by
  unfold rainfall_score
  have ht : 0 ≤ c + f * (8/10) := by
    have := mul_nonneg hf (by norm_num : (0:ℚ) ≤ 8/10)
    linarith
  split_ifs with h1 h2 h3 h4
  · norm_num
  · norm_num
  · norm_num
  · norm_num
  · exact ⟨le_min (by norm_num) (div_nonneg ht (by norm_num)),
      (min_le_left _ _).trans (by norm_num)⟩

lemma stage_score_bounds (r f : ℚ) : 0 ≤ stage_score r f ∧ stage_score r f ≤ 15 := by
  unfold stage_score
  split_ifs with hb h1 h2 h3 h4
  · norm_num
  · norm_num
  · norm_num
  · norm_num
  · have hq : 0 ≤ r / f := div_nonneg hb.1.le hb.2.le
    exact ⟨le_min (by norm_num) (mul_nonneg hq (by norm_num)),
      (min_le_left _ _).trans (by norm_num)⟩
  · norm_num

lemma flow_score_bounds (u : ℚ) : 0 ≤ flow_score u ∧ flow_score u ≤ 10 := by
  unfold flow_score
  split_ifs with hb h1 h2 h3
  · norm_num
  · norm_num
  · norm_num
  · have hq : 0 ≤ u / 10000 := div_nonneg (le_of_lt hb) (by norm_num)
    exact ⟨le_min (by norm_num) (mul_nonneg hq (by norm_num)),
      (min_le_left _ _).trans (by norm_num)⟩
  · norm_num

lemma alert_score_bounds (a : ℚ) (ha : 0 ≤ a) :
    0 ≤ alert_score a ∧ alert_score a ≤ 5 := by
  unfold alert_score
  exact ⟨le_min (by norm_num) (mul_nonneg ha (by norm_num)), min_le_left _ _⟩

lemma elevation_score_bounds (e : ℚ) :
    0 ≤ elevation_score e ∧ elevation_score e ≤ 15 := by
  unfold elevation_score
  split_ifs with h1 h2 h3 h4
  · norm_num
  · norm_num
  · norm_num
  · norm_num
  · refine ⟨le_max_left _ _, max_le (by norm_num) (by linarith)⟩

lemma proximity_score_bounds (d : ℚ) :
    0 ≤ proximity_score d ∧ proximity_score d ≤ 15 := by
  unfold proximity_score
  split_ifs with h1 h2 h3 h4
  · norm_num
  · norm_num
  · norm_num
  · norm_num
  · refine ⟨le_max_left _ _, max_le (by norm_num) (by linarith)⟩

lemma historical_score_bounds (n : ℚ) (hn : 0 ≤ n) :
    0 ≤ historical_score n ∧ historical_score n ≤ 10 := by
  unfold historical_score
  exact ⟨le_min (by norm_num) (by linarith), min_le_left _ _⟩

lemma population_score_bounds (p : ℚ) (hp : 0 ≤ p) :
    0 ≤ population_score p ∧ population_score p ≤ 10 := by
  unfold population_score
  split_ifs with h1 h2 h3
  · norm_num
  · norm_num
  · norm_num
  · exact ⟨le_min (by norm_num) (div_nonneg hp (by norm_num)),
      (min_le_left _ _).trans (by norm_num)⟩

/-- C1: for nonnegative measurements the likelihood sum is at most 50, the
severity sum is at most 50, the total is their plain sum, and the reported
overall score lies in [0, 100]. -/
theorem risk_score_bounded (m : RiskInput) (h : NonNegInput m) :
    0 ≤ likelihood_score m ∧ likelihood_score m ≤ 50 ∧
    0 ≤ severity_score m ∧ severity_score m ≤ 50 ∧
    total_score m = likelihood_score m + severity_score m ∧
    0 ≤ (calculate_risk_score m).overall_risk_score ∧
    (calculate_risk_score m).overall_risk_score ≤ 100 := by
  obtain ⟨h1, h2, h3, h4, h5, h6, h7, h8, h9, h10⟩ := h
  have hr := rainfall_score_bounds m.current_rainfall_mm m.forecast_rainfall_mm h1 h2
  have hs := stage_score_bounds m.river_stage_ft m.flood_stage_ft
  have hfl := flow_score_bounds m.usgs_flow_cfs
  have ha := alert_score_bounds m.weather_alerts h10
  have he := elevation_score_bounds m.elevation_m
  have hp := proximity_score_bounds m.distance_to_water_km
  have hh := historical_score_bounds m.historical_events h6
  have hpop := population_score_bounds m.population_density h5
  have hlik0 : 0 ≤ likelihood_score m := by
    unfold likelihood_score; linarith [hr.1, hs.1, hfl.1, ha.1]
  have hlik50 : likelihood_score m ≤ 50 := by
    unfold likelihood_score; linarith [hr.2, hs.2, hfl.2, ha.2]
  have hsev0 : 0 ≤ severity_score m := by
    unfold severity_score; linarith [he.1, hp.1, hh.1, hpop.1]
  have hsev50 : severity_score m ≤ 50 := by
    unfold severity_score; linarith [he.2, hp.2, hh.2, hpop.2]
  have htot : total_score m = likelihood_score m + severity_score m := rfl
  refine ⟨hlik0, hlik50, hsev0, hsev50, htot, ?_, ?_⟩
  · show 0 ≤ round1 (total_score m)
    exact round1_nonneg _ (by rw [htot]; linarith)
  · show round1 (total_score m) ≤ 100
    have := round1_le (total_score m) 100 (by rw [htot]; push_cast; linarith)
    simpa using this

/-- C1 witness: the bounds instantiated at the all-default measurement. -/
theorem risk_score_bounded_witness :
    0 ≤ (calculate_risk_score {}).overall_risk_score ∧
    (calculate_risk_score {}).overall_risk_score ≤ 100 :=
  ⟨(risk_score_bounded {} (by norm_num [NonNegInput])).2.2.2.2.2.1,
   (risk_score_bounded {} (by norm_num [NonNegInput])).2.2.2.2.2.2⟩

/-- Step function stated by the spec for the level classification:
at least 80 "Extreme", at least 65 "Critical", at least 50 "High",
at least 35 "Moderate", at least 20 "Low", otherwise "Very Low".
Written from the spec sentence, to be compared with `risk_level_of`. -/
def spec_step_level (t : ℚ) : String :=
  if 80 ≤ t then "Extreme"
  else if 65 ≤ t then "Critical"
  else if 50 ≤ t then "High"
  else if 35 ≤ t then "Moderate"
  else if 20 ≤ t then "Low"
  else "Very Low"

/-- Position of a level in the fixed ordering
Very Low < Low < Moderate < High < Critical < Extreme. -/
def level_rank (s : String) : ℕ :=
  if s = "Very Low" then 0
  else if s = "Low" then 1
  else if s = "Moderate" then 2
  else if s = "High" then 3
  else if s = "Critical" then 4
  else if s = "Extreme" then 5
  else 6

/-- C3: the risk level reported by `calculate_risk_score` is exactly the
spec's step function of the total score, and that step function is
monotonically non-decreasing in the score under the fixed level ordering. -/
theorem risk_level_step_monotone :
    (∀ m : RiskInput,
      (calculate_risk_score m).risk_level = spec_step_level (total_score m)) ∧
    ∀ s t : ℚ, s ≤ t →
      level_rank (spec_step_level s) ≤ level_rank (spec_step_level t) := by
  constructor
  · intro m
    rfl
  · intro s t hst
    unfold spec_step_level
    split_ifs <;> simp [level_rank] <;> linarith

/-- C3 witness: monotonicity applied at the concrete pair 10 ≤ 90. -/
theorem risk_level_step_monotone_witness :
    level_rank (spec_step_level 10) ≤ level_rank (spec_step_level 90) :=
  risk_level_step_monotone.2 10 90 (by norm_num)

/-- C4: the immediate-risk flag is "High" exactly when rainfall exceeds
50 mm, or there is an active weather alert, or the stage-to-flood-stage
quotient (both positive) is at least 0.9; it is "Low" otherwise, and it
does not depend on the composite score. -/
theorem immediate_risk_iff (m : RiskInput) (h : NonNegInput m) :
    ((calculate_risk_score m).immediate_risk = "High" ↔
      50 < m.current_rainfall_mm ∨ 0 < m.weather_alerts ∨
      (0 < m.flood_stage_ft ∧ 0 < m.river_stage_ft ∧
        9/10 ≤ m.river_stage_ft / m.flood_stage_ft)) ∧
    ((calculate_risk_score m).immediate_risk = "High" ∨
      (calculate_risk_score m).immediate_risk = "Low") := by
  have hshow : (calculate_risk_score m).immediate_risk = immediate_risk_of m := rfl
  rw [hshow]
  unfold immediate_risk_of
  split_ifs with hc
  · refine ⟨⟨fun _ => ?_, fun _ => rfl⟩, Or.inl rfl⟩
    tauto
  · refine ⟨⟨fun hco => absurd hco (by decide), fun hr => absurd ?_ hc⟩, Or.inr rfl⟩
    tauto

/-- Measurement with 51 mm current rainfall and every other field zero. -/
def rain51 : RiskInput :=
  { current_rainfall_mm := 51
    forecast_rainfall_mm := 0
    elevation_m := 0
    distance_to_water_km := 0
    population_density := 0
    historical_events := 0
    usgs_flow_cfs := 0
    river_stage_ft := 0
    flood_stage_ft := 0
    weather_alerts := 0 }

/-- C4 witness: with 51 mm rainfall and all other fields zero the flag is
"High". -/
theorem immediate_risk_iff_witness :
    (calculate_risk_score rain51).immediate_risk = "High" :=
  (immediate_risk_iff rain51 (by norm_num [NonNegInput, rain51])).1.mpr
    (Or.inl (by norm_num [rain51]))

/-- C5 counterexample: an absent `distance_to_water_km` is substituted
with 5 (and an absent `population_density` with 1000), not with the 0 the
claim states. -/
theorem default_input_counterexample :
    ({} : RiskInput).distance_to_water_km = 5 ∧
    ({} : RiskInput).population_density = 1000 ∧
    ¬ (({} : RiskInput).distance_to_water_km = 0 ∧
       ({} : RiskInput).population_density = 0) := by
  refine ⟨rfl, rfl, ?_⟩
  norm_num

/-- C5 amended: the defaults substituted for absent fields are 0 for
rainfall, forecast rainfall, historical events, flow, river stage and
alerts, while elevation defaults to 100, flood stage to 20, distance to
water to 5 and population density to 1000; no field is required. -/
theorem default_input_values :
    ({} : RiskInput).current_rainfall_mm = 0 ∧
    ({} : RiskInput).forecast_rainfall_mm = 0 ∧
    ({} : RiskInput).elevation_m = 100 ∧
    ({} : RiskInput).distance_to_water_km = 5 ∧
    ({} : RiskInput).population_density = 1000 ∧
    ({} : RiskInput).historical_events = 0 ∧
    ({} : RiskInput).usgs_flow_cfs = 0 ∧
    ({} : RiskInput).river_stage_ft = 0 ∧
    ({} : RiskInput).flood_stage_ft = 20 ∧
    ({} : RiskInput).weather_alerts = 0 :=
  ⟨rfl, rfl, rfl, rfl, rfl, rfl, rfl, rfl, rfl, rfl⟩

/-- C6 counterexample: the elevation sub-score is not antitone across the
200 m boundary: at 199 m it is 5 yet at 200 m it rises to 10. -/
theorem elevation_score_not_antitone :
    (199:ℚ) ≤ 200 ∧ elevation_score 199 = 5 ∧ elevation_score 200 = 10 ∧
    ¬ elevation_score 200 ≤ elevation_score 199 := by
  norm_num [elevation_score, max_def]

/-- C6 amended: the elevation sub-score always lies in [0, 15] and is
antitone on either side of the 200 m boundary (both elevations below
200 m, or both at least 200 m), but not across that boundary, where it
jumps from 5 up to 10. -/
theorem elevation_score_piecewise (e1 e2 : ℚ) (h0 : 0 ≤ e1) (h12 : e1 ≤ e2) :
    (0 ≤ elevation_score e2 ∧ elevation_score e2 ≤ 15) ∧
    (e2 < 200 → elevation_score e2 ≤ elevation_score e1) ∧
    (200 ≤ e1 → elevation_score e2 ≤ elevation_score e1) := by
  refine ⟨elevation_score_bounds e2, ?_, ?_⟩
  · intro h2
    unfold elevation_score
    split_ifs <;> first | linarith | (simp only [max_def]; split_ifs <;> linarith)
  · intro h1
    unfold elevation_score
    split_ifs <;> first | linarith | (simp only [max_def]; split_ifs <;> linarith)
/-- C6 witness: the amended antitonicity applied at 30 ≤ 100, both below
200 m. -/
theorem elevation_score_piecewise_witness :
    elevation_score 100 ≤ elevation_score 30 :=
  (elevation_score_piecewise 30 100 (by norm_num) (by norm_num)).2.1 (by norm_num)

/-! Predictor: flow projection, confidence, critical-period estimation and
forecast aggregation, from `predictor.py`. -/

/-- Flow projection of `_predict_watershed_conditions` (`predictor.py`
lines 199-204): the naive linear extrapolation
`current + trend_rate * hours_ahead` pulled back toward the current flow by
a decay factor.  In the source the decay factor is `math.exp(-hours_ahead/24)`,
a transcendental value with no exact rational counterpart; it enters the
projection only as a multiplier, so it is taken here as an explicit
argument, and the no-drift theorem below holds for every value of it, in
particular the source's `exp(-hours_ahead/24)` (which is 1 at
`hours_ahead = 0`). -/
def predicted_flow (current_flow trend_rate hours_ahead decay_factor : ℚ) : ℚ :=
  current_flow + (current_flow + trend_rate * hours_ahead - current_flow) * decay_factor

/-- C7: the flow projection has no drift in the degenerate cases: it equals
the current flow whenever the trend rate is zero (any horizon, any decay)
and whenever the horizon is zero (any trend rate, any decay). -/
theorem predicted_flow_no_drift (c t h d : ℚ) :
    (t = 0 → predicted_flow c t h d = c) ∧
    (h = 0 → predicted_flow c t h d = c) := by
  unfold predicted_flow
  constructor <;> intro h0 <;> subst h0 <;> ring

/-- C7 witness: both degenerate cases at concrete inputs. -/
theorem predicted_flow_no_drift_witness :
    predicted_flow 15000 0 24 (1/2) = 15000 ∧
    predicted_flow 15000 120 0 1 = 15000 :=
  ⟨(predicted_flow_no_drift 15000 0 24 (1/2)).1 rfl,
   (predicted_flow_no_drift 15000 120 0 1).2 rfl⟩

/-- Watershed fields read by `_predict_next_critical_period`
(`predictor.py` lines 368-420): `name`, `trend_rate_cfs_per_hour` and
`risk_score` (0-10 scale). -/
structure Watershed where
  name : String
  trend_rate_cfs_per_hour : ℚ
  risk_score : ℚ

/-- Qualification test of the critical-period loop (`predictor.py`
line 382): trend rate above 50 and current risk above 5. -/
def critical_qualifies (w : Watershed) : Bool :=
  decide (50 < w.trend_rate_cfs_per_hour ∧ 5 < w.risk_score)

/-- Estimated hours to critical conditions (`predictor.py` line 384):
`max(1, (8.5 - current_risk) / (trend_rate / 100))`. -/
def critical_hours (w : Watershed) : ℚ :=
  max 1 ((17/2 - w.risk_score) / (w.trend_rate_cfs_per_hour / 100))

/-- Fields of the critical-period estimate (`predictor.py` lines 410-415).
The source renders `hours_to_critical` into a display `timeframe` string;
the numeric value it formats is kept here instead. -/
structure CriticalPeriod where
  hours_to_critical : ℚ
  confidence : ℚ
  severity : String
  primary_watershed : String

/-- The estimate built for one watershed (`predictor.py` lines 386-390 and
401-415): confidence `max(60, 95 - hours*2)`, severity "high" when the
trend rate exceeds 100. -/
def critical_estimate (w : Watershed) : CriticalPeriod :=
  { hours_to_critical := critical_hours w
    confidence := max 60 (95 - critical_hours w * 2)
    severity := if 100 < w.trend_rate_cfs_per_hour then "high" else "moderate"
    primary_watershed := w.name }

/-- Python `min(..., key=lambda x: x.hours_to_critical)` over a nonempty
list (`predictor.py` line 396): left fold keeping the first element whose
hours are strictly smaller than the best so far. -/
def pick_earliest (w : Watershed) : List Watershed → Watershed
  | [] => w
  | x :: xs => pick_earliest (if critical_hours x < critical_hours w then x else w) xs

/-- The `_predict_next_critical_period` agent step (`predictor.py`
lines 368-420): keep the watersheds passing the qualification test, return
`none` when none passes, otherwise take the earliest estimate and discard
it when it lies more than 72 hours out. -/
def predict_next_critical_period (ws : List Watershed) : Option CriticalPeriod :=
  match ws.filter critical_qualifies with
  | [] => none
  | q :: qs =>
    if 72 < critical_hours (pick_earliest q qs) then none
    else some (critical_estimate (pick_earliest q qs))

lemma pick_earliest_mem (w : Watershed) (xs : List Watershed) :
    pick_earliest w xs ∈ w :: xs := by
  induction xs generalizing w with
  | nil => simp [pick_earliest]
  | cons x xs ih =>
    have h := ih (if critical_hours x < critical_hours w then x else w)
    rw [pick_earliest]
    rcases List.mem_cons.mp h with h1 | h1
    · rw [h1]
      split_ifs <;> simp
    · simp only [List.mem_cons] at h1 ⊢
      tauto

lemma pick_earliest_le (w : Watershed) (xs : List Watershed) :
    ∀ y ∈ w :: xs, critical_hours (pick_earliest w xs) ≤ critical_hours y := by
  induction xs generalizing w with
  | nil =>
    intro y hy
    rcases List.mem_cons.mp hy with rfl | hy2
    · simp [pick_earliest]
    · simp at hy2
  | cons x xs ih =>
    intro y hy
    have hw : critical_hours (if critical_hours x < critical_hours w then x else w) ≤
        critical_hours w := by
      split_ifs with hc
      · exact hc.le
      · exact le_rfl
    have hx : critical_hours (if critical_hours x < critical_hours w then x else w) ≤
        critical_hours x := by
      split_ifs with hc
      · exact le_rfl
      · exact not_lt.mp hc
    have hself := ih (if critical_hours x < critical_hours w then x else w) _
      (List.mem_cons_self _ _)
    rw [pick_earliest]
    rcases List.mem_cons.mp hy with rfl | hy2
    · exact hself.trans hw
    · rcases List.mem_cons.mp hy2 with rfl | hy3
      · exact hself.trans hx
      · exact ih _ y (List.mem_cons_of_mem _ hy3)

/-- C8: the critical-period estimate is absent exactly when either no
watershed passes the trend/risk qualification or every qualifying
watershed's estimated hours to critical exceed 72; when it is present it
is the estimate of a qualifying watershed within 72 hours whose hours to
critical are minimal among all qualifying watersheds. -/
theorem critical_period_contract (ws : List Watershed) :
    (predict_next_critical_period ws = none ↔
      (∀ w ∈ ws, ¬(50 < w.trend_rate_cfs_per_hour ∧ 5 < w.risk_score)) ∨
      (∀ w ∈ ws, (50 < w.trend_rate_cfs_per_hour ∧ 5 < w.risk_score) →
        72 < critical_hours w)) ∧
    (∀ p, predict_next_critical_period ws = some p →
      ∃ w ∈ ws, (50 < w.trend_rate_cfs_per_hour ∧ 5 < w.risk_score) ∧
        critical_hours w ≤ 72 ∧ p = critical_estimate w ∧
        ∀ w2 ∈ ws, (50 < w2.trend_rate_cfs_per_hour ∧ 5 < w2.risk_score) →
          critical_hours w ≤ critical_hours w2) := by
  constructor
  · constructor
    · intro hnone
      rcases hfil : ws.filter critical_qualifies with _ | ⟨q, qs⟩
      · left
        intro w hw
        have := List.filter_eq_nil_iff.mp hfil w hw
        simpa [critical_qualifies] using this
      · right
        intro w hw hq
        rw [predict_next_critical_period, hfil] at hnone
        dsimp only at hnone
        split_ifs at hnone with h72
        have hwmem : w ∈ ws.filter critical_qualifies :=
          List.mem_filter.mpr ⟨hw, by simp [critical_qualifies, hq]⟩
        rw [hfil] at hwmem
        exact lt_of_lt_of_le h72 (pick_earliest_le q qs w hwmem)
    · intro hcond
      rcases hfil : ws.filter critical_qualifies with _ | ⟨q, qs⟩
      · rw [predict_next_critical_period, hfil]
      · rw [predict_next_critical_period, hfil]
        dsimp only
        have hqmem : pick_earliest q qs ∈ ws.filter critical_qualifies := by
          rw [hfil]; exact pick_earliest_mem q qs
        have hqws := List.mem_filter.mp hqmem
        have hqual : 50 < (pick_earliest q qs).trend_rate_cfs_per_hour ∧
            5 < (pick_earliest q qs).risk_score := by
          simpa [critical_qualifies] using hqws.2
        rcases hcond with h1 | h2
        · exact absurd hqual (h1 _ hqws.1)
        · rw [if_pos (h2 _ hqws.1 hqual)]
  · intro p hp
    rcases hfil : ws.filter critical_qualifies with _ | ⟨q, qs⟩
    · rw [predict_next_critical_period, hfil] at hp
      exact absurd hp (by simp)
    · rw [predict_next_critical_period, hfil] at hp
      dsimp only at hp
      split_ifs at hp with h72
      have hqmem : pick_earliest q qs ∈ ws.filter critical_qualifies := by
        rw [hfil]; exact pick_earliest_mem q qs
      have hqws := List.mem_filter.mp hqmem
      refine ⟨pick_earliest q qs, hqws.1, ?_, not_lt.mp h72, ?_, ?_⟩
      · simpa [critical_qualifies] using hqws.2
      · exact (Option.some.injEq _ _ ▸ hp).symm
      · intro w2 hw2 hq2
        have hw2mem : w2 ∈ ws.filter critical_qualifies :=
          List.mem_filter.mpr ⟨hw2, by simp [critical_qualifies, hq2]⟩
        rw [hfil] at hw2mem
        exact pick_earliest_le q qs w2 hw2mem

/-- C8 witness: with no watersheds the estimate is absent, derived from
the contract. -/
theorem critical_period_contract_witness :
    predict_next_critical_period [] = none :=
  (critical_period_contract []).1.mpr (Or.inl (by simp))

/-- Successful per-watershed forecast as `generate_forecast` consumes it:
the `watershed_name` and `confidence` fields of the dict built by
`_predict_watershed_conditions` (`predictor.py` lines 222-241). -/
structure ForecastEntry where
  watershed_name : String
  confidence : ℚ

/-- What `generate_forecast` reads from one watershed's outcome
(`predictor.py` line 166): `_predict_watershed_conditions` catches every
exception internally and returns the empty dict (lines 242-244), modelled
as `none`, on which `.get('confidence', 0.5)` yields the default 1/2. -/
def entry_confidence : Option ForecastEntry → ℚ
  | some e => e.confidence
  | none => 1/2

/-- The forecast dict of `generate_forecast` (`predictor.py`
lines 152-168): the per-watershed entries in loop order and the overall
confidence. -/
structure Forecast where
  watersheds_forecast : List (Option ForecastEntry)
  overall_confidence : ℚ

/-- Aggregation loop of `generate_forecast` (`predictor.py`
lines 161-168): every outcome (empty dicts included) is appended to
`watersheds_forecast` and contributes `.get('confidence', 0.5)` to the
total; `overall_confidence` stays at its initial 0.0 when there are no
watersheds and is otherwise the total divided by the number of
watersheds. -/
def generate_forecast (results : List (Option ForecastEntry)) : Forecast :=
  { watersheds_forecast := results
    overall_confidence :=
      if results.isEmpty then 0
      else (results.map entry_confidence).sum / results.length }

/-- C9 counterexample: with one successful watershed (confidence 0.9) and
one that raised, the failed watershed is not skipped: its empty entry is
still appended (two entries, not one) and the overall confidence is
(0.9 + 0.5)/2 = 0.7, not the 0.9 mean over the remaining watersheds. -/
theorem generate_forecast_counterexample :
    (generate_forecast [some ⟨"Walnut Creek", 9/10⟩, none]).watersheds_forecast.length = 2 ∧
    (generate_forecast [some ⟨"Walnut Creek", 9/10⟩, none]).overall_confidence = 7/10 ∧
    ¬ (generate_forecast [some ⟨"Walnut Creek", 9/10⟩, none]).overall_confidence = 9/10 := by
  refine ⟨rfl, ?_, ?_⟩ <;> norm_num [generate_forecast, entry_confidence]

lemma list_sum_bounds (l : List ℚ) (h : ∀ x ∈ l, 0 ≤ x ∧ x ≤ 1) :
    0 ≤ l.sum ∧ l.sum ≤ (l.length : ℚ) := by
  induction l with
  | nil => simp
  | cons x xs ih =>
    have hx := h x (List.mem_cons_self x xs)
    have hxs := ih fun y hy => h y (List.mem_cons_of_mem _ hy)
    simp only [List.sum_cons, List.length_cons]
    push_cast
    constructor <;> linarith [hx.1, hx.2, hxs.1, hxs.2]

/-- C9 amended: a watershed whose prediction raised is caught inside
`_predict_watershed_conditions` and never propagates; its empty entry is
still appended to the forecast list (so entries of the other watersheds
are preserved) and it contributes the default confidence 0.5 to the
overall mean, which divides by the number of all watersheds rather than
only the remaining ones; with no watersheds the forecast is the neutral
empty result.  When every successful confidence lies in [0, 1] the overall
confidence also lies in [0, 1]. -/
theorem generate_forecast_isolation (results : List (Option ForecastEntry))
    (h : ∀ e : ForecastEntry, some e ∈ results → 0 ≤ e.confidence ∧ e.confidence ≤ 1) :
    (generate_forecast results).watersheds_forecast = results ∧
    (generate_forecast []).watersheds_forecast = [] ∧
    (generate_forecast []).overall_confidence = 0 ∧
    (results ≠ [] → (generate_forecast results).overall_confidence =
      (results.map entry_confidence).sum / results.length) ∧
    0 ≤ (generate_forecast results).overall_confidence ∧
    (generate_forecast results).overall_confidence ≤ 1 := by
  have hb : ∀ x ∈ results.map entry_confidence, 0 ≤ x ∧ x ≤ 1 := by
    intro x hx
    rcases List.mem_map.mp hx with ⟨o, ho, rfl⟩
    cases o with
    | none => norm_num [entry_confidence]
    | some e => exact ⟨(h e ho).1, (h e ho).2⟩
  have hsum := list_sum_bounds _ hb
  rw [List.length_map] at hsum
  refine ⟨rfl, rfl, rfl, ?_, ?_, ?_⟩
  · intro hne
    show (if results.isEmpty then (0:ℚ) else _) = _
    rw [if_neg (by simpa [List.isEmpty_iff] using hne)]
  · show (0:ℚ) ≤ if results.isEmpty then 0 else _
    split_ifs with he
    · norm_num
    · have hlen : (0:ℚ) < results.length := by
        have : results ≠ [] := by simpa [List.isEmpty_iff] using he
        have : 0 < results.length := List.length_pos.mpr this
        exact_mod_cast this
      exact div_nonneg hsum.1 hlen.le
  · show (if results.isEmpty then (0:ℚ) else _) ≤ 1
    split_ifs with he
    · norm_num
    · have hlen : (0:ℚ) < results.length := by
        have : results ≠ [] := by simpa [List.isEmpty_iff] using he
        have : 0 < results.length := List.length_pos.mpr this
        exact_mod_cast this
      rw [div_le_one hlen]
      exact hsum.2

/-- C9 amended witness: the isolation statement at a concrete two-element
batch with one failure. -/
theorem generate_forecast_isolation_witness :
    0 ≤ (generate_forecast [some ⟨"Brazos River", 4/5⟩, none]).overall_confidence ∧
    (generate_forecast [some ⟨"Brazos River", 4/5⟩, none]).overall_confidence ≤ 1 :=
  ⟨(generate_forecast_isolation [some ⟨"Brazos River", 4/5⟩, none]
      (by intro e he; simp at he; subst he; norm_num)).2.2.2.2.1,
   (generate_forecast_isolation [some ⟨"Brazos River", 4/5⟩, none]
      (by intro e he; simp at he; subst he; norm_num)).2.2.2.2.2⟩

/-- Trend-stability assessment `_assess_trend_stability` (`predictor.py`
lines 545-549): the source returns the constant 0.8. -/
def assess_trend_stability : ℚ := 8/10

/-- Confidence computation of `_predict_watershed_conditions`
(`predictor.py` lines 210-220): start at 0.9, multiply by 0.8 when the
data is more than 2 hours old, by 0.9 when trend stability is below 0.7,
by 0.8 when the horizon exceeds 24 hours.  The source applies the
discounts as sequential `*=` updates; the product below is that same
sequence written in one expression. -/
def forecast_confidence (data_age trend_stability hours_ahead : ℚ) : ℚ :=
  (9/10) * (if 2 < data_age then 8/10 else 1)
    * (if trend_stability < 7/10 then 9/10 else 1)
    * (if 24 < hours_ahead then 8/10 else 1)

/-- C10: with the constant trend stability 0.8 the stability discount
never fires, so the confidence takes exactly the three values 0.9,
0.9*0.8 and 0.9*0.8*0.8 (each attained), lies in [0.576, 0.9], stays
strictly inside [0, 1] and never drops below 0.5. -/
theorem forecast_confidence_values (da ha : ℚ) :
    (forecast_confidence da assess_trend_stability ha = 9/10 ∨
     forecast_confidence da assess_trend_stability ha = 9/10 * (8/10) ∨
     forecast_confidence da assess_trend_stability ha = 9/10 * (8/10) * (8/10)) ∧
    9/10 * (8/10) * (8/10) ≤ forecast_confidence da assess_trend_stability ha ∧
    forecast_confidence da assess_trend_stability ha ≤ 9/10 ∧
    1/2 < forecast_confidence da assess_trend_stability ha ∧
    0 < forecast_confidence da assess_trend_stability ha ∧
    forecast_confidence da assess_trend_stability ha < 1 ∧
    forecast_confidence 0 assess_trend_stability 0 = 9/10 ∧
    forecast_confidence 3 assess_trend_stability 0 = 9/10 * (8/10) ∧
    forecast_confidence 3 assess_trend_stability 25 = 9/10 * (8/10) * (8/10) := by
  by_cases hda : (2:ℚ) < da <;> by_cases hha : (24:ℚ) < ha <;>
    norm_num [forecast_confidence, assess_trend_stability, hda, hha]
